import Mathlib

/-!
# vtk-js rendering core: `vtkProp3D` and `vtkOpenGLSkybox`

A shallow embedding of `Sources/Rendering/Core/Prop3D/index.js` and
`Sources/Rendering/OpenGL/Skybox/index.js`, followed by the properties
established about them.

JavaScript numbers are modelled in exact arithmetic (`ℚ` for coordinates,
`Int` for modification stamps).  Arrays of fixed size three (enforced by
`macro.setGetArray(..., 3)`) are modelled by `Vec3`.
-/

namespace VtkJs

/-! ## Three-component arrays -/

/-- A JavaScript array of exactly three numbers. -/
structure Vec3 where
  x : ℚ
  y : ℚ
  z : ℚ
deriving DecidableEq

namespace Vec3

/-- The elements of the array in index order. -/
def toList (v : Vec3) : List ℚ := [v.x, v.y, v.z]

/-- Indexing `array[index]` for `index` in `0..2`. -/
def get (v : Vec3) : Fin 3 → ℚ
  | 0 => v.x
  | 1 => v.y
  | 2 => v.z

/-- The array method `array.map((value, index) => f(value, index))`. -/
def mapIdx (v : Vec3) (f : ℚ → Fin 3 → ℚ) : Vec3 :=
  ⟨f v.x 0, f v.y 1, f v.z 2⟩

end Vec3

/-! ## Prop3D -/

/-- A collaborating vtk object (user matrix or user transform) as far as
`vtkProp3D` looks at it: only `getMTime()` is called on it. -/
structure Stamped where
  getMTime : Int
deriving DecidableEq

/-- The `model` of a `vtkProp3D` instance.  `modifiedCalls` counts the calls
of `publicAPI.modified()`, `console` collects the lines written by
`console.log`.  The fields `cachedProp3D` and `transform` are written once
with `null` and never read, so they are left out. -/
structure Prop3D where
  origin : Vec3
  position : Vec3
  orientation : Vec3
  scale : Vec3
  bounds : List ℚ
  userMatrix : Option Stamped
  userTransform : Option Stamped
  isIdentity : Bool
  matrix : List ℚ
  mtime : Int
  modifiedCalls : Nat
  console : List String
deriving DecidableEq

/-- The result of `mat4.create()` of gl-matrix: the 4x4 identity, column-major. -/
def mat4Create : List ℚ :=
  [1, 0, 0, 0,
   0, 1, 0, 0,
   0, 0, 1, 0,
   0, 0, 0, 1]

/-- The instance built by `newInstance()` with no initial values:
`DEFAULT_VALUES` followed by `model.matrix = mat4.create()`. -/
def newInstance : Prop3D where
  origin := ⟨0, 0, 0⟩
  position := ⟨0, 0, 0⟩
  orientation := ⟨0, 0, 0⟩
  scale := ⟨1, 1, 1⟩
  bounds := [1, -1, 1, -1, 1, -1]
  userMatrix := none
  userTransform := none
  isIdentity := true
  matrix := mat4Create
  mtime := 0
  modifiedCalls := 0
  console := []

/-- The callback `updateIdentityFlag` registered with `publicAPI.onModified`.
The `forEach` over `[origin, position, orientation]` is a left fold whose
accumulator is the model. -/
def updateIdentityFlag (model : Prop3D) : Prop3D :=
  if !model.isIdentity then
    model
  else
    let model := [model.origin, model.position, model.orientation].foldl
      (fun model array =>
        if model.isIdentity then
          model
        else if (array.toList.filter (fun v => decide (v ≠ 0))).length ≠ 0 then
          { model with isIdentity := false }
        else
          model)
      model
    if (model.scale.toList.filter (fun v => decide (v ≠ 1))).length ≠ 0 then
      { model with isIdentity := false }
    else
      model

/-- Modelled from the spec: `publicAPI.modified()` comes from `macro.obj`,
which is not among the sources.  Following "`touch()` increments the stamp
and signals observers", it increments the stamp and then runs the one
registered observer, `updateIdentityFlag`. -/
def modified (model : Prop3D) : Prop3D :=
  updateIdentityFlag
    { model with mtime := model.mtime + 1, modifiedCalls := model.modifiedCalls + 1 }

/-- The method `publicAPI.getUserTransformMatrixMTime`. -/
def getUserTransformMatrixMTime (model : Prop3D) : Int :=
  max
    (match model.userMatrix with
     | some m => m.getMTime
     | none => 0)
    (match model.userTransform with
     | some t => t.getMTime
     | none => 0)

/-- The method `publicAPI.getMTime`. -/
def getMTime (model : Prop3D) : Int :=
  max model.mtime (getUserTransformMatrixMTime model)

/-- The method `publicAPI.addPosition`. -/
def addPosition (model : Prop3D) (deltaXYZ : Vec3) : Prop3D :=
  modified
    { model with position := model.position.mapIdx (fun value index => value + deltaXYZ.get index) }

/-- The function returned by `notImplemented(method)`: it writes one line to
the console.  The source uses single quotes, so the placeholder is not
interpolated and `method` does not appear in the line. -/
def notImplemented (_method : String) (model : Prop3D) : Prop3D :=
  { model with console := model.console ++ ["vtkProp3D::$\x7bmethod\x7d - NOT IMPLEMENTED"] }

/-- The method `publicAPI.computeMatrix`, which is `notImplemented('computeMatrix')`. -/
def computeMatrix (model : Prop3D) : Prop3D :=
  notImplemented "computeMatrix" model

/-- The method `publicAPI.getMatrix`: the state after the call and the matrix returned. -/
def getMatrix (model : Prop3D) : Prop3D × List ℚ :=
  let model := computeMatrix model
  (model, model.matrix)

/-- The getter `publicAPI.getIsIdentity` generated by `macro.get`. -/
def getIsIdentity (model : Prop3D) : Bool := model.isIdentity

/-- Modelled from the spec: the setters `setOrigin`, `setPosition` and
`setScale` are generated by `macro.setGetArray`, which is not among the
sources.  Following "every mutator bumps the clock and re-evaluates
`isIdentity`", a setter stores the three values and calls `modified()`. -/
def setOrigin (model : Prop3D) (v : Vec3) : Prop3D :=
  modified { model with origin := v }

/-- Modelled from the spec: see `setOrigin`. -/
def setPosition (model : Prop3D) (v : Vec3) : Prop3D :=
  modified { model with position := v }

/-- Modelled from the spec: see `setOrigin`. -/
def setScale (model : Prop3D) (v : Vec3) : Prop3D :=
  modified { model with scale := v }

/-- The method `publicAPI.setOrientation`.  `vtkProp3D` runs after
`macro.setGetArray` inside `extend` and overwrites the generated setter with
`notImplemented('setOrientation')`, so the arguments are ignored. -/
def setOrientation (model : Prop3D) (_v : Vec3) : Prop3D :=
  notImplemented "setOrientation" model

/-- The mutating calls of the public API. -/
inductive Mutation where
  | addPosition (delta : Vec3)
  | setOrigin (v : Vec3)
  | setPosition (v : Vec3)
  | setOrientation (v : Vec3)
  | setScale (v : Vec3)
deriving DecidableEq

/-- One mutating call. -/
def Mutation.apply (model : Prop3D) : Mutation → Prop3D
  | .addPosition d => VtkJs.addPosition model d
  | .setOrigin v => VtkJs.setOrigin model v
  | .setPosition v => VtkJs.setPosition model v
  | .setOrientation v => VtkJs.setOrientation model v
  | .setScale v => VtkJs.setScale model v

/-- A sequence of mutating calls, first call first. -/
def applyAll (model : Prop3D) (ms : List Mutation) : Prop3D :=
  ms.foldl Mutation.apply model

/-- All four transform fields hold their default values. -/
def AllDefault (model : Prop3D) : Prop :=
  model.origin = ⟨0, 0, 0⟩ ∧ model.position = ⟨0, 0, 0⟩ ∧
    model.orientation = ⟨0, 0, 0⟩ ∧ model.scale = ⟨1, 1, 1⟩

instance (model : Prop3D) : Decidable (AllDefault model) := by
  unfold AllDefault; infer_instance

/-- The stamps that contribute to the effective stamp of a Prop3D besides its
own: that of the user matrix and that of the user transform, when present. -/
def dependencyStamps (model : Prop3D) : List Int :=
  (model.userMatrix.toList ++ model.userTransform.toList).map Stamped.getMTime

/-- The maximum of the own stamp and the stamps of the dependencies present,
as the data model words the effective stamp. -/
def effectiveStamp (model : Prop3D) : Int :=
  (dependencyStamps model).foldl max model.mtime

/-- A Prop3D with a user matrix stamped 5 and a user transform stamped 3. -/
def stampedExample : Prop3D :=
  { newInstance with mtime := 4, userMatrix := some ⟨5⟩, userTransform := some ⟨3⟩ }

/-! ## Skybox -/

/-- A JavaScript value held in a reference slot, compared with `!==`:
`null`, `undefined`, or an object known by its identity. -/
inductive JSRef where
  | null
  | undefined
  | object (id : Nat)
deriving DecidableEq

/-- Indexing `array[i]` on a JavaScript array of references: `undefined`
past the end. -/
def jsIndex (array : List JSRef) (i : Nat) : JSRef :=
  match array.get? i with
  | some r => r
  | none => JSRef.undefined

/-- The constants of `Rendering/Core/Property/Constants`. -/
inductive Representation where
  | POINTS
  | WIREFRAME
  | SURFACE
deriving DecidableEq

/-- A `vtkDataArray` as built by `vtkDataArray.newInstance` and `setName`. -/
structure DataArray (α : Type) where
  numberOfComponents : Nat
  values : List α
  name : Option String
deriving DecidableEq

/-- The cell array buffer object `model.tris.getCABO()` as far as the skybox
reads it: its element count, vertex offset, stride and uploaded contents. -/
structure CellArrayBufferObject where
  elementCount : Nat
  vertexOffset : Nat
  stride : Nat
  contents : List ℚ
deriving DecidableEq

/-- The helper `model.tris`: its buffer object and its shader program handle. -/
structure Helper where
  cabo : CellArrayBufferObject
  program : Option Nat
deriving DecidableEq

/-- The texture helper `model.openGLTexture`: the renderable it is bound to
and the GPU handle it holds. -/
structure OpenGLTexture where
  renderable : JSRef
  handle : Option Nat
deriving DecidableEq

/-- The `model` of a `vtkOpenGLSkybox` node as far as `updateBufferObjects`
uses it; `textures` is what `model.renderable.getTextures()` returns.  The
shader source time stamp and the vertex array object are acted upon but
never read, so the calls on them only show in the trace of calls. -/
structure Skybox where
  tris : Helper
  openGLTexture : OpenGLTexture
  textures : List JSRef
deriving DecidableEq

/-- The calls `updateBufferObjects` makes on its collaborators, in order. -/
inductive Call where
  | createVBO (cells : DataArray Nat) (points : DataArray ℚ)
  | readyShaderProgramArray (vertexSource fragmentSource geometrySource : String)
  | setProgram (program : Nat)
  | shaderSourceTimeModified
  | vaoBind
  | addAttributeArray (program : Nat) (name : String)
  | vtkErrorMacro (message : String)
  | releaseGraphicsResources
  | setRenderable (renderable : JSRef)
deriving DecidableEq

/-- The collaborators whose code is outside `updateBufferObjects`: the buffer
builder `createVBO`, the shader cache of the render window and the vertex
array object, and the constants `FLOAT` and `FALSE` of the drawing context.
They are parameters of the embedding. -/
structure Collaborators where
  createVBO : CellArrayBufferObject → DataArray Nat → String → Representation →
    DataArray ℚ → Nat → CellArrayBufferObject
  readyShaderProgramArray : String → String → String → Nat
  addAttributeArray : Nat → CellArrayBufferObject → String → Nat → Nat → Nat → Nat → Nat → Bool
  FLOAT : Nat
  FALSE : Nat

/-- The vertex shader source passed to `readyShaderProgramArray`. -/
def vertexShaderSource : String :=
  String.intercalate "\n" [
   "//VTK::System::Dec",
   "           attribute vec3 vertexMC;",
   "           varying vec3 TexCoords;",
   "           uniform mat4 IMCDCMatrix;",
   "           uniform vec3 camPos;",
   "           void main () \x7b",
   "            gl_Position = vec4(vertexMC.xyz, 1.0);",
   "            vec4 wpos = IMCDCMatrix * gl_Position;",
   "            TexCoords = normalize(wpos.xyz/wpos.w - camPos);",
   "           \x7d"]

/-- The fragment shader source passed to `readyShaderProgramArray`. -/
def fragmentShaderSource : String :=
  String.intercalate "\n" [
   "//VTK::System::Dec",
   "           //VTK::Output::Dec",
   "           varying vec3 TexCoords;",
   "           uniform samplerCube sbtexture;",
   "           void main () \x7b",
   "             // skybox looks from inside out",
   "             // which means we have to adjust",
   "             // our tcoords. Otherwise text would",
   "             // be flipped",
   "             vec3 tc = TexCoords;",
   "             if (abs(tc.z) < max(abs(tc.x),abs(tc.y)))",
   "             \x7b",
   "               tc = vec3(1.0, 1.0, -1.0) * tc;",
   "             \x7d",
   "             else",
   "             \x7b",
   "               tc = vec3(-1.0, 1.0, 1.0) * tc;",
   "             \x7d",
   "             gl_FragData[0] = textureCube(sbtexture, tc);",
   "           \x7d"]

/-- The array `ptsArray`: a `Float32Array(12)` of zeros filled by the loop
`for (let i = 0; i < 4; i++)`.  All values written are exactly representable. -/
def ptsArray : List ℚ :=
  (List.range 4).foldl
    (fun ptsArray i =>
      ((ptsArray.set (i * 3) (((i % 2 : Nat) : ℚ) * 2 - 1)).set (i * 3 + 1)
        (if i > 1 then 1 else -1)).set (i * 3 + 2) 1)
    (List.replicate 12 0)

/-- The array `cellArray`: a `Uint16Array(8)` of zeros with its eight entries assigned. -/
def cellArray : List Nat :=
  ((((((((List.replicate 8 0).set 0 3).set 1 0).set 2 1).set 3 3).set 4 3).set 5 0).set 6 3).set 7 2

/-- The data array `points`. -/
def points : DataArray ℚ :=
  { numberOfComponents := 3, values := ptsArray, name := some "points" }

/-- The data array `cells`. -/
def cells : DataArray Nat :=
  { numberOfComponents := 1, values := cellArray, name := none }

/-- Modelled from the spec: `releaseGraphicsResources` belongs to
`Rendering/OpenGL/Texture`, which is not among the sources.  Following
"releases prior GPU handles for the old binding", the handle is dropped. -/
def releaseGraphicsResources (texture : OpenGLTexture) : OpenGLTexture :=
  { texture with handle := none }

/-- Modelled from the spec: `setRenderable` is a generated setter of the
texture helper, not among the sources.  Following "rebinds to the new one",
it stores the reference. -/
def setRenderable (texture : OpenGLTexture) (renderable : JSRef) : OpenGLTexture :=
  { texture with renderable := renderable }

/-- The method `publicAPI.updateBufferObjects`: the state after the call and
the calls made on the collaborators, in order. -/
def updateBufferObjects (env : Collaborators) (model : Skybox) : Skybox × List Call :=
  -- build the VBO if needed, only happens once
  let (model, built) :=
    if model.tris.cabo.elementCount = 0 then
      let cabo := env.createVBO model.tris.cabo cells "polys" Representation.SURFACE points 0
      let program := env.readyShaderProgramArray vertexShaderSource fragmentShaderSource ""
      let bound := env.addAttributeArray program cabo "vertexMC" cabo.vertexOffset cabo.stride
        env.FLOAT 3 env.FALSE
      ({ model with tris := { cabo := cabo, program := some program } },
        [Call.createVBO cells points,
         Call.readyShaderProgramArray vertexShaderSource fragmentShaderSource "",
         Call.setProgram program,
         Call.shaderSourceTimeModified,
         Call.vaoBind,
         Call.addAttributeArray program "vertexMC"]
        ++ (if !bound then [Call.vtkErrorMacro "Error setting vertexMC in shader VAO."] else []))
    else
      (model, [])
  -- set/update the texture map if needed
  let tmaps := model.textures
  let reported :=
    if tmaps.length = 0 then [Call.vtkErrorMacro "vtkSkybox requires a texture map"] else []
  if model.openGLTexture.renderable ≠ jsIndex tmaps 0 then
    ({ model with
        openGLTexture := setRenderable (releaseGraphicsResources model.openGLTexture) (jsIndex tmaps 0) },
      built ++ reported ++ [Call.releaseGraphicsResources, Call.setRenderable (jsIndex tmaps 0)])
  else
    (model, built ++ reported)

/-- The calls of a trace that go to the texture helper. -/
def textureCalls (trace : List Call) : List Call :=
  trace.filter fun c =>
    match c with
    | Call.releaseGraphicsResources => true
    | Call.setRenderable _ => true
    | _ => false

/-- The calls of a trace that allocate or bind buffer and program resources. -/
def buildCalls (trace : List Call) : List Call :=
  trace.filter fun c =>
    match c with
    | Call.createVBO _ _ => true
    | Call.readyShaderProgramArray _ _ _ => true
    | Call.setProgram _ => true
    | Call.addAttributeArray _ _ => true
    | _ => false

/-- The errors reported through `vtkErrorMacro` in a trace. -/
def reportedErrors (trace : List Call) : List String :=
  trace.filterMap fun c =>
    match c with
    | Call.vtkErrorMacro message => some message
    | _ => none

/-! ### Geometry of the quad -/

/-- Modelled from the spec: the decoder of the cell array is part of the
buffer builder, not among the sources.  Following "each primitive is
prefixed by its vertex count followed by that many indices", it reads a
count and then that many indices, and fails on a truncated primitive.  The
first argument bounds the number of primitives; the length of the array is
always enough. -/
def decodeCellsAux : Nat → List Nat → Option (List (List Nat))
  | _, [] => some []
  | 0, _ :: _ => none
  | fuel + 1, n :: rest =>
    if rest.length < n then none
    else (decodeCellsAux fuel (rest.drop n)).map fun cs => rest.take n :: cs

/-- Modelled from the spec: the primitives of a cell array in the
length-prefixed polygon encoding, see `decodeCellsAux`. -/
def decodeCells (cellArray : List Nat) : Option (List (List Nat)) :=
  decodeCellsAux cellArray.length cellArray

/-- The vertex with index `i` of a flat array of 3D positions. -/
def vertex (pts : List ℚ) (i : Nat) : ℚ × ℚ × ℚ :=
  (pts.getD (3 * i) 0, pts.getD (3 * i + 1) 0, pts.getD (3 * i + 2) 0)

/-- Twice the signed area of the triangle `a b p` projected on the plane
`z = 1`; positive when `a`, `b`, `p` turn counter-clockwise. -/
def edge (a b p : ℚ × ℚ × ℚ) : ℚ :=
  (b.1 - a.1) * (p.2.1 - a.2.1) - (b.2.1 - a.2.1) * (p.1 - a.1)

/-- The point `p` lies in the closed counter-clockwise triangle `a b c`. -/
def inTriangle (a b c p : ℚ × ℚ × ℚ) : Prop :=
  0 ≤ edge a b p ∧ 0 ≤ edge b c p ∧ 0 ≤ edge c a p

/-- A sample of collaborators: the buffer builder uploads the points and
reports six elements, the shader cache hands out program 1, and binding the
attribute succeeds. -/
def sampleCollaborators : Collaborators where
  createVBO := fun cabo _ _ _ points _ =>
    { cabo with elementCount := 6, stride := 12, contents := points.values }
  readyShaderProgramArray := fun _ _ _ => 1
  addAttributeArray := fun _ _ _ _ _ _ _ _ => true
  FLOAT := 5126
  FALSE := 0

/-- A freshly constructed node with one texture: nothing built, nothing bound. -/
def freshSkybox : Skybox where
  tris := { cabo := { elementCount := 0, vertexOffset := 0, stride := 0, contents := [] },
            program := none }
  openGLTexture := { renderable := JSRef.null, handle := none }
  textures := [JSRef.object 1]

/-- A node drawn before with texture 7, whose renderable now has no texture. -/
def skyboxWithoutTextures : Skybox where
  tris := { cabo := { elementCount := 6, vertexOffset := 0, stride := 12, contents := [] },
            program := some 1 }
  openGLTexture := { renderable := JSRef.object 7, handle := some 3 }
  textures := []

/-- A node with no texture whose texture helper holds `undefined`. -/
def skyboxUnbound : Skybox where
  tris := { cabo := { elementCount := 0, vertexOffset := 0, stride := 0, contents := [] },
            program := none }
  openGLTexture := { renderable := JSRef.undefined, handle := none }
  textures := []

/-! ## Properties of Prop3D -/

/-- What one run of `updateIdentityFlag` computes: the flag is latched with
the test on `scale`; the three tests of the `forEach` never run. -/
theorem updateIdentityFlag_eq (s : Prop3D) :
    updateIdentityFlag s =
      { s with isIdentity :=
          s.isIdentity && decide (s.scale.x = 1 ∧ s.scale.y = 1 ∧ s.scale.z = 1) } := by
  obtain ⟨o, p, r, ⟨x, y, z⟩, b, um, ut, flag, m, t, c, l⟩ := s
  cases flag
  · simp [updateIdentityFlag]
  · by_cases hx : x = 1 <;> by_cases hy : y = 1 <;> by_cases hz : z = 1 <;>
      simp [updateIdentityFlag, Vec3.toList, List.filter, hx, hy, hz]

/-- What `modified()` does to the model. -/
theorem modified_eq (s : Prop3D) :
    modified s =
      { s with
        mtime := s.mtime + 1
        modifiedCalls := s.modifiedCalls + 1
        isIdentity :=
          s.isIdentity && decide (s.scale.x = 1 ∧ s.scale.y = 1 ∧ s.scale.z = 1) } := by
  rw [modified, updateIdentityFlag_eq]

/-- A three-component array is `[1, 1, 1]` when each component is 1. -/
theorem Vec3.eq_ones_iff (v : Vec3) : v = ⟨1, 1, 1⟩ ↔ v.x = 1 ∧ v.y = 1 ∧ v.z = 1 := by
  cases v
  simp

/-- The identity flag after `setScale`. -/
theorem setScale_isIdentity (s : Prop3D) (v : Vec3) :
    (setScale s v).isIdentity = (s.isIdentity && decide (v.x = 1 ∧ v.y = 1 ∧ v.z = 1)) := by
  simp [setScale, modified_eq]

/-- The scale after `setScale`. -/
theorem setScale_scale (s : Prop3D) (v : Vec3) : (setScale s v).scale = v := by
  simp [setScale, modified_eq]

/-- A mutating call never raises the identity flag. -/
theorem Mutation.apply_isIdentity_false (s : Prop3D) (m : Mutation)
    (h : s.isIdentity = false) : (Mutation.apply s m).isIdentity = false := by
  cases m <;>
    simp [Mutation.apply, VtkJs.addPosition, VtkJs.setOrigin, VtkJs.setPosition,
      VtkJs.setScale, VtkJs.setOrientation, notImplemented, modified_eq, h]

/-- A mutating call leaves the cached matrix alone. -/
theorem Mutation.apply_matrix (s : Prop3D) (m : Mutation) :
    (Mutation.apply s m).matrix = s.matrix := by
  cases m <;>
    simp [Mutation.apply, VtkJs.addPosition, VtkJs.setOrigin, VtkJs.setPosition,
      VtkJs.setScale, VtkJs.setOrientation, notImplemented, modified_eq]

/-- A sequence of mutating calls leaves the cached matrix alone. -/
theorem applyAll_matrix (ms : List Mutation) (s : Prop3D) :
    (applyAll s ms).matrix = s.matrix := by
  induction ms generalizing s with
  | nil => rfl
  | cons m ms ih =>
    show (applyAll (Mutation.apply s m) ms).matrix = s.matrix
    rw [ih, Mutation.apply_matrix]

/-- After a mutating call, a raised identity flag comes with `scale = [1, 1, 1]`,
provided that held before the call. -/
theorem Mutation.apply_flag_scale (s : Prop3D) (m : Mutation)
    (h : s.isIdentity = true → s.scale = ⟨1, 1, 1⟩) :
    (Mutation.apply s m).isIdentity = true → (Mutation.apply s m).scale = ⟨1, 1, 1⟩ := by
  cases m with
  | setOrientation v => exact h
  | setScale v =>
    intro hflag
    rw [Mutation.apply, setScale_isIdentity, Bool.and_eq_true, decide_eq_true_eq] at hflag
    rw [Mutation.apply, setScale_scale]
    exact (Vec3.eq_ones_iff v).2 hflag.2
  | _ =>
    simp only [Mutation.apply, VtkJs.addPosition, VtkJs.setOrigin, VtkJs.setPosition, modified_eq]
    intro hflag
    simp only [Bool.and_eq_true, decide_eq_true_eq] at hflag
    exact (Vec3.eq_ones_iff s.scale).2 hflag.2

/-- A raised identity flag comes with `scale = [1, 1, 1]` along every
sequence of mutating calls, provided that held at the start. -/
theorem applyAll_flag_scale (ms : List Mutation) (s : Prop3D)
    (h : s.isIdentity = true → s.scale = ⟨1, 1, 1⟩) :
    (applyAll s ms).isIdentity = true → (applyAll s ms).scale = ⟨1, 1, 1⟩ := by
  induction ms generalizing s with
  | nil => exact h
  | cons m ms ih => exact ih (Mutation.apply s m) (Mutation.apply_flag_scale s m h)

/-- C1, counterexample: on a fresh Prop3D, after `addPosition([1, 0, 0])`
the flag read by `getIsIdentity()` is still true although the position is no
longer `(0, 0, 0)`; and after `setScale(2, 1, 1)` followed by
`setScale(1, 1, 1)` it is false although all four fields hold their defaults. -/
theorem c1_isIdentity_differs_from_defaults :
    (getIsIdentity (applyAll newInstance [Mutation.addPosition ⟨1, 0, 0⟩]) = true ∧
      ¬ AllDefault (applyAll newInstance [Mutation.addPosition ⟨1, 0, 0⟩])) ∧
    (getIsIdentity
        (applyAll newInstance [Mutation.setScale ⟨2, 1, 1⟩, Mutation.setScale ⟨1, 1, 1⟩]) = false ∧
      AllDefault
        (applyAll newInstance [Mutation.setScale ⟨2, 1, 1⟩, Mutation.setScale ⟨1, 1, 1⟩])) := by
  simp [getIsIdentity, applyAll, Mutation.apply, addPosition, setScale, modified_eq,
    newInstance, AllDefault, Vec3.mapIdx, Vec3.get]

/-- C1, amended: in every state reached from a fresh Prop3D by mutating
calls, if `getIsIdentity()` is true then `scale` is `(1, 1, 1)`. -/
theorem c1_isIdentity_implies_unit_scale (ms : List Mutation)
    (hflag : getIsIdentity (applyAll newInstance ms) = true) :
    (applyAll newInstance ms).scale = ⟨1, 1, 1⟩ :=
  applyAll_flag_scale ms newInstance (fun _ => rfl) hflag

/-- C1, amended, at the calls `addPosition([1, 0, 0])`, `setOrigin(2, 0, 0)`:
the flag is true and the scale is `(1, 1, 1)`. -/
theorem c1_isIdentity_implies_unit_scale_witness :
    getIsIdentity
        (applyAll newInstance [Mutation.addPosition ⟨1, 0, 0⟩, Mutation.setOrigin ⟨2, 0, 0⟩]) = true ∧
      (applyAll newInstance
        [Mutation.addPosition ⟨1, 0, 0⟩, Mutation.setOrigin ⟨2, 0, 0⟩]).scale = ⟨1, 1, 1⟩ :=
  ⟨by decide,
    c1_isIdentity_implies_unit_scale
      [Mutation.addPosition ⟨1, 0, 0⟩, Mutation.setOrigin ⟨2, 0, 0⟩] (by decide)⟩

/-- C2, counterexample: setting `scale` of a fresh Prop3D to `(2, 1, 1)` and
back to `(1, 1, 1)` leaves `isIdentity` false, with `scale` back at its
default. -/
theorem c2_scale_round_trip_leaves_flag_false :
    (setScale (setScale newInstance ⟨2, 1, 1⟩) ⟨1, 1, 1⟩).isIdentity = false ∧
    (setScale (setScale newInstance ⟨2, 1, 1⟩) ⟨1, 1, 1⟩).scale = ⟨1, 1, 1⟩ ∧
    (setScale newInstance ⟨2, 1, 1⟩).isIdentity = false := by
  decide

/-- C2, amended: on a fresh Prop3D, setting a field to a value and then back
to its default leaves `isIdentity` as it was right after the first call, for
each of origin, position, orientation and scale; for `scale` and a value
other than `(1, 1, 1)` that is false. -/
theorem c2_set_back_keeps_flag (v : Vec3) (hv : v ≠ ⟨1, 1, 1⟩) :
    ((setScale newInstance v).isIdentity = false ∧
        (setScale (setScale newInstance v) ⟨1, 1, 1⟩).isIdentity = false ∧
        (setScale (setScale newInstance v) ⟨1, 1, 1⟩).scale = ⟨1, 1, 1⟩) ∧
      (∀ w : Vec3,
        (setOrigin (setOrigin newInstance w) ⟨0, 0, 0⟩).isIdentity =
            (setOrigin newInstance w).isIdentity ∧
          (setPosition (setPosition newInstance w) ⟨0, 0, 0⟩).isIdentity =
            (setPosition newInstance w).isIdentity ∧
          (setOrientation (setOrientation newInstance w) ⟨0, 0, 0⟩).isIdentity =
            (setOrientation newInstance w).isIdentity ∧
          (setScale (setScale newInstance w) ⟨1, 1, 1⟩).isIdentity =
            (setScale newInstance w).isIdentity) := by
  have hfirst : (setScale newInstance v).isIdentity = false := by
    rw [setScale_isIdentity, Bool.and_eq_false_iff]
    right
    rw [decide_eq_false_iff_not]
    exact fun h => hv ((Vec3.eq_ones_iff v).2 h)
  refine ⟨⟨hfirst, ?_, setScale_scale _ _⟩, ?_⟩
  · rw [setScale_isIdentity, hfirst]
    rfl
  · intro w
    refine ⟨?_, ?_, ?_, ?_⟩ <;>
      simp [setOrigin, setPosition, setOrientation, setScale, notImplemented, modified_eq,
        newInstance]

/-- C2, amended, at `scale = (1, 1, 3)`: the flag is false after the first
call and still false after setting `scale` back. -/
theorem c2_set_back_keeps_flag_witness :
    (setScale newInstance ⟨1, 1, 3⟩).isIdentity = false ∧
      (setScale (setScale newInstance ⟨1, 1, 3⟩) ⟨1, 1, 1⟩).isIdentity = false :=
  ⟨(c2_set_back_keeps_flag ⟨1, 1, 3⟩ (by decide)).1.1,
    (c2_set_back_keeps_flag ⟨1, 1, 3⟩ (by decide)).1.2.1⟩

/-- The state after a run of `addPosition` calls, for any starting state. -/
theorem foldl_addPosition (ds : List Vec3) (model : Prop3D) :
    (ds.foldl addPosition model).position =
        ⟨model.position.x + (ds.map Vec3.x).sum,
         model.position.y + (ds.map Vec3.y).sum,
         model.position.z + (ds.map Vec3.z).sum⟩ ∧
      (ds.foldl addPosition model).origin = model.origin ∧
      (ds.foldl addPosition model).orientation = model.orientation ∧
      (ds.foldl addPosition model).scale = model.scale ∧
      (ds.foldl addPosition model).bounds = model.bounds ∧
      (ds.foldl addPosition model).modifiedCalls = model.modifiedCalls + ds.length ∧
      (ds.foldl addPosition model).mtime = model.mtime + ds.length := by
  induction ds generalizing model with
  | nil => simp
  | cons d ds ih =>
    simp only [List.foldl_cons, List.map_cons, List.sum_cons, List.length_cons]
    obtain ⟨h1, h2, h3, h4, h5, h6, h7⟩ := ih (addPosition model d)
    rw [h1, h2, h3, h4, h5, h6, h7]
    simp only [addPosition, modified_eq, Vec3.mapIdx, Vec3.get]
    refine ⟨?_, trivial, trivial, trivial, trivial, ?_, ?_⟩
    · simp only [Vec3.mk.injEq]
      refine ⟨?_, ?_, ?_⟩ <;> ring
    · omega
    · push_cast; ring

/-- C3: after `addPosition` with the deltas `ds` in order, each component of
the position is the old component plus the sum of that component over all
deltas (the plain sum of the deltas on a fresh Prop3D); origin, orientation,
scale and bounds are unchanged; `modified()` has run once per call, and the
stamp has advanced by the number of calls. -/
theorem c3_addPosition_accumulates (model : Prop3D) (ds : List Vec3) :
    (ds.foldl addPosition model).position =
        ⟨model.position.x + (ds.map Vec3.x).sum,
         model.position.y + (ds.map Vec3.y).sum,
         model.position.z + (ds.map Vec3.z).sum⟩ ∧
      (ds.foldl addPosition newInstance).position =
        ⟨(ds.map Vec3.x).sum, (ds.map Vec3.y).sum, (ds.map Vec3.z).sum⟩ ∧
      (ds.foldl addPosition model).origin = model.origin ∧
      (ds.foldl addPosition model).orientation = model.orientation ∧
      (ds.foldl addPosition model).scale = model.scale ∧
      (ds.foldl addPosition model).bounds = model.bounds ∧
      (ds.foldl addPosition model).modifiedCalls = model.modifiedCalls + ds.length ∧
      (ds.foldl addPosition model).mtime = model.mtime + ds.length := by
  obtain ⟨h1, h2, h3, h4, h5, h6, h7⟩ := foldl_addPosition ds model
  refine ⟨h1, ?_, h2, h3, h4, h5, h6, h7⟩
  rw [(foldl_addPosition ds newInstance).1]
  simp [newInstance]

/-- C4: when no stamp is negative, `getMTime()` is the maximum of the own
stamp and the stamps of the user matrix and user transform that are present;
and raising the own stamp, the user matrix stamp or the user transform stamp
never lowers `getMTime()`. -/
theorem c4_getMTime_is_max (model : Prop3D)
    (hown : 0 ≤ model.mtime)
    (hmatrix : ∀ m, model.userMatrix = some m → 0 ≤ m.getMTime)
    (htransform : ∀ t, model.userTransform = some t → 0 ≤ t.getMTime) :
    getMTime model = effectiveStamp model ∧
      (∀ k : Nat, getMTime model ≤ getMTime { model with mtime := model.mtime + k }) ∧
      (∀ (m : Stamped) (k : Nat), model.userMatrix = some m →
        getMTime model ≤ getMTime { model with userMatrix := some ⟨m.getMTime + k⟩ }) ∧
      (∀ (t : Stamped) (k : Nat), model.userTransform = some t →
        getMTime model ≤ getMTime { model with userTransform := some ⟨t.getMTime + k⟩ }) := by
  refine ⟨?_, ?_, ?_, ?_⟩
  · cases hm : model.userMatrix with
    | none =>
      cases ht : model.userTransform with
      | none =>
        simp [getMTime, getUserTransformMatrixMTime, effectiveStamp, dependencyStamps, hm, ht, hown]
      | some t =>
        have := htransform t ht
        simp [getMTime, getUserTransformMatrixMTime, effectiveStamp, dependencyStamps, hm, ht, this]
    | some m =>
      have h1 := hmatrix m hm
      cases ht : model.userTransform with
      | none =>
        simp [getMTime, getUserTransformMatrixMTime, effectiveStamp, dependencyStamps, hm, ht, h1]
      | some t =>
        simp [getMTime, getUserTransformMatrixMTime, effectiveStamp, dependencyStamps, hm, ht,
          max_assoc]
  · intro k
    simp only [getMTime, getUserTransformMatrixMTime]
    exact max_le_max (by omega) le_rfl
  · intro m k hm
    simp only [getMTime, getUserTransformMatrixMTime, hm]
    exact max_le_max le_rfl (max_le_max (by omega) le_rfl)
  · intro t k ht
    simp only [getMTime, getUserTransformMatrixMTime, ht]
    exact max_le_max le_rfl (max_le_max le_rfl (by omega))

/-- C4 at `stampedExample`: `getMTime()` is 5, the largest of 4, 5 and 3. -/
theorem c4_getMTime_is_max_witness :
    getMTime stampedExample = effectiveStamp stampedExample ∧ getMTime stampedExample = 5 :=
  ⟨(c4_getMTime_is_max stampedExample (by decide)
      (by intro m h; cases h; decide) (by intro t h; cases h; decide)).1, by decide⟩

/-- C5, evaluated on the code: `getMatrix()` returns the matrix made by
`mat4.create()` after any sequence of mutating calls; in particular after
`addPosition([1, 0, 0])` on a fresh instance the position is `(1, 0, 0)`,
the matrix returned equals the one returned before the call, and its
translation entries (indices 12, 13, 14) are all 0. -/
theorem c5_getMatrix_is_never_recomputed :
    (∀ ms : List Mutation, (getMatrix (applyAll newInstance ms)).2 = mat4Create) ∧
      (addPosition newInstance ⟨1, 0, 0⟩).position = ⟨1, 0, 0⟩ ∧
      (getMatrix (addPosition newInstance ⟨1, 0, 0⟩)).2 = (getMatrix newInstance).2 ∧
      ((getMatrix (addPosition newInstance ⟨1, 0, 0⟩)).2.drop 12).take 3 = [0, 0, 0] := by
  refine ⟨?_, ?_, by decide, by decide⟩
  · intro ms
    show (computeMatrix (applyAll newInstance ms)).matrix = mat4Create
    simp only [computeMatrix, notImplemented]
    rw [applyAll_matrix]
    rfl
  · simp [addPosition, modified_eq, newInstance, Vec3.mapIdx, Vec3.get]

/-- C10: one run of `updateIdentityFlag` replaces `isIdentity` by its old
value and-ed with "every component of `scale` is 1" and changes nothing
else; the result does not depend on origin, position or orientation; and
once `isIdentity` is false it stays false under `modified()` and under every
sequence of mutating calls. -/
theorem c10_updateIdentityFlag_latches_on_scale (model : Prop3D) :
    updateIdentityFlag model =
        { model with
          isIdentity :=
            (model.isIdentity && decide (model.scale.x = 1 ∧ model.scale.y = 1 ∧ model.scale.z = 1)) } ∧
      (∀ o p r : Vec3,
        (updateIdentityFlag { model with origin := o, position := p, orientation := r }).isIdentity =
          (updateIdentityFlag model).isIdentity) ∧
      (model.isIdentity = false → (modified model).isIdentity = false) ∧
      (model.isIdentity = false → ∀ ms : List Mutation, (applyAll model ms).isIdentity = false) := by
  refine ⟨updateIdentityFlag_eq model, ?_, ?_, ?_⟩
  · intro o p r
    simp [updateIdentityFlag_eq]
  · intro h
    simp [modified_eq, h]
  · intro h ms
    induction ms generalizing model with
    | nil => exact h
    | cons m ms ih => exact ih (Mutation.apply model m) (Mutation.apply_isIdentity_false model m h)

/-! ## Properties of the skybox -/

/-- The texture list is not changed by `updateBufferObjects`. -/
theorem updateBufferObjects_textures (env : Collaborators) (model : Skybox) :
    (updateBufferObjects env model).1.textures = model.textures := by
  by_cases h1 : model.tris.cabo.elementCount = 0 <;>
    by_cases h2 : model.openGLTexture.renderable = jsIndex model.textures 0 <;>
    simp [updateBufferObjects, h1, h2]

/-- After `updateBufferObjects` the texture helper is bound to `tmaps[0]`. -/
theorem updateBufferObjects_renderable (env : Collaborators) (model : Skybox) :
    (updateBufferObjects env model).1.openGLTexture.renderable = jsIndex model.textures 0 := by
  by_cases h1 : model.tris.cabo.elementCount = 0 <;>
    by_cases h2 : model.openGLTexture.renderable = jsIndex model.textures 0 <;>
    simp [updateBufferObjects, h1, h2, setRenderable]

/-- The texture helper after `updateBufferObjects`: released and rebound
when it was not bound to `tmaps[0]`, untouched otherwise. -/
theorem updateBufferObjects_openGLTexture (env : Collaborators) (model : Skybox) :
    (updateBufferObjects env model).1.openGLTexture =
      if model.openGLTexture.renderable ≠ jsIndex model.textures 0 then
        setRenderable (releaseGraphicsResources model.openGLTexture) (jsIndex model.textures 0)
      else model.openGLTexture := by
  by_cases h1 : model.tris.cabo.elementCount = 0 <;>
    by_cases h2 : model.openGLTexture.renderable = jsIndex model.textures 0 <;>
    simp [updateBufferObjects, h1, h2]

/-- The calls `updateBufferObjects` makes on the texture helper. -/
theorem updateBufferObjects_textureCalls (env : Collaborators) (model : Skybox) :
    textureCalls (updateBufferObjects env model).2 =
      if model.openGLTexture.renderable ≠ jsIndex model.textures 0 then
        [Call.releaseGraphicsResources, Call.setRenderable (jsIndex model.textures 0)]
      else [] := by
  by_cases h1 : model.tris.cabo.elementCount = 0 <;>
    by_cases h2 : model.openGLTexture.renderable = jsIndex model.textures 0 <;>
    by_cases h3 : model.textures.length = 0 <;>
    simp [updateBufferObjects, h1, h2, h3, textureCalls, List.filter_append]

/-- The helper after `updateBufferObjects`: rebuilt when the element count
was zero, untouched otherwise. -/
theorem updateBufferObjects_tris (env : Collaborators) (model : Skybox) :
    (updateBufferObjects env model).1.tris =
      if model.tris.cabo.elementCount = 0 then
        { cabo := env.createVBO model.tris.cabo cells "polys" Representation.SURFACE points 0
          program := some (env.readyShaderProgramArray vertexShaderSource fragmentShaderSource "") }
      else model.tris := by
  by_cases h1 : model.tris.cabo.elementCount = 0 <;>
    by_cases h2 : model.openGLTexture.renderable = jsIndex model.textures 0 <;>
    simp [updateBufferObjects, h1, h2]

/-- A call on a node whose buffer is built and whose texture helper is bound
to `tmaps[0]` changes nothing and makes no call besides the error report. -/
theorem updateBufferObjects_of_built (env : Collaborators) (model : Skybox)
    (hcount : model.tris.cabo.elementCount ≠ 0)
    (hbound : model.openGLTexture.renderable = jsIndex model.textures 0) :
    updateBufferObjects env model =
      (model,
        if model.textures.length = 0 then [Call.vtkErrorMacro "vtkSkybox requires a texture map"]
        else []) := by
  unfold updateBufferObjects
  simp [hcount, hbound]

/-- C6: when `createVBO` leaves a nonzero element count, a second call of
`updateBufferObjects` makes no `createVBO`, `readyShaderProgramArray`,
`setProgram` or `addAttributeArray` call and leaves the element count, the
buffer contents and the program handle (indeed the whole node state) as they
were after the first call. -/
theorem c6_updateBufferObjects_idempotent (env : Collaborators) (model : Skybox)
    (hcreate :
      (env.createVBO model.tris.cabo cells "polys" Representation.SURFACE points 0).elementCount
        ≠ 0) :
    buildCalls (updateBufferObjects env (updateBufferObjects env model).1).2 = [] ∧
      (updateBufferObjects env (updateBufferObjects env model).1).1.tris.cabo.elementCount =
        (updateBufferObjects env model).1.tris.cabo.elementCount ∧
      (updateBufferObjects env (updateBufferObjects env model).1).1.tris.cabo.contents =
        (updateBufferObjects env model).1.tris.cabo.contents ∧
      (updateBufferObjects env (updateBufferObjects env model).1).1.tris.program =
        (updateBufferObjects env model).1.tris.program ∧
      (updateBufferObjects env (updateBufferObjects env model).1).1 =
        (updateBufferObjects env model).1 := by
  have hcount : (updateBufferObjects env model).1.tris.cabo.elementCount ≠ 0 := by
    rw [updateBufferObjects_tris]
    split_ifs with h
    · exact hcreate
    · exact h
  have hbound : (updateBufferObjects env model).1.openGLTexture.renderable =
      jsIndex (updateBufferObjects env model).1.textures 0 := by
    rw [updateBufferObjects_renderable, updateBufferObjects_textures]
  have hsecond := updateBufferObjects_of_built env (updateBufferObjects env model).1 hcount hbound
  rw [hsecond]
  refine ⟨?_, rfl, rfl, rfl, rfl⟩
  show buildCalls (if _ then _ else _) = []
  split_ifs <;> rfl

/-- C6 at `freshSkybox` with `sampleCollaborators`: the first call builds a
buffer of six elements and program 1, the second call makes no call at all. -/
theorem c6_updateBufferObjects_idempotent_witness :
    (updateBufferObjects sampleCollaborators freshSkybox).1.tris.cabo.elementCount = 6 ∧
      buildCalls (updateBufferObjects sampleCollaborators
        (updateBufferObjects sampleCollaborators freshSkybox).1).2 = [] ∧
      (updateBufferObjects sampleCollaborators
        (updateBufferObjects sampleCollaborators freshSkybox).1).1 =
        (updateBufferObjects sampleCollaborators freshSkybox).1 :=
  ⟨by decide,
    (c6_updateBufferObjects_idempotent sampleCollaborators freshSkybox (by decide)).1,
    (c6_updateBufferObjects_idempotent sampleCollaborators freshSkybox (by decide)).2.2.2.2⟩

/-- C7, counterexample: with an empty texture list and the texture helper
bound to texture 7, `updateBufferObjects` reports the error and then still
calls `releaseGraphicsResources` and `setRenderable(undefined)`, so the
helper loses its handle and its renderable becomes `undefined`. -/
theorem c7_empty_texture_list_still_rebinds :
    skyboxWithoutTextures.textures = [] ∧
      (updateBufferObjects sampleCollaborators skyboxWithoutTextures).2 =
        [Call.vtkErrorMacro "vtkSkybox requires a texture map",
         Call.releaseGraphicsResources,
         Call.setRenderable JSRef.undefined] ∧
      skyboxWithoutTextures.openGLTexture.renderable = JSRef.object 7 ∧
      (updateBufferObjects sampleCollaborators skyboxWithoutTextures).1.openGLTexture =
        { renderable := JSRef.undefined, handle := none } := by
  decide

/-- C7, amended: with an empty texture list `updateBufferObjects` reports
the error 'vtkSkybox requires a texture map' and then handles `tmaps[0]`,
which is `undefined`, like any first texture: a texture helper whose
renderable is not `undefined` gets exactly `releaseGraphicsResources` then
`setRenderable(undefined)` and ends up with renderable `undefined`; one
whose renderable is `undefined` gets no call and is unchanged. -/
theorem c7_empty_texture_list_unbinds (env : Collaborators) (model : Skybox)
    (hempty : model.textures = []) :
    "vtkSkybox requires a texture map" ∈ reportedErrors (updateBufferObjects env model).2 ∧
      (model.openGLTexture.renderable ≠ JSRef.undefined →
        textureCalls (updateBufferObjects env model).2 =
            [Call.releaseGraphicsResources, Call.setRenderable JSRef.undefined] ∧
          (updateBufferObjects env model).1.openGLTexture.renderable = JSRef.undefined) ∧
      (model.openGLTexture.renderable = JSRef.undefined →
        textureCalls (updateBufferObjects env model).2 = [] ∧
          (updateBufferObjects env model).1.openGLTexture = model.openGLTexture) := by
  have hindex : jsIndex model.textures 0 = JSRef.undefined := by simp [hempty, jsIndex]
  refine ⟨?_, ?_, ?_⟩
  · by_cases h1 : model.tris.cabo.elementCount = 0 <;>
      by_cases h2 : model.openGLTexture.renderable = JSRef.undefined <;>
      simp [updateBufferObjects, h1, h2, hempty, jsIndex, reportedErrors, List.filterMap_append]
  · intro hne
    rw [updateBufferObjects_textureCalls, updateBufferObjects_renderable, hindex]
    simp [hne]
  · intro heq
    rw [updateBufferObjects_textureCalls, updateBufferObjects_openGLTexture, hindex]
    simp [heq]

/-- C7, amended, at `skyboxUnbound`: the error is reported and no call goes
to the texture helper, which stays as it was. -/
theorem c7_empty_texture_list_unbinds_witness :
    "vtkSkybox requires a texture map" ∈
        reportedErrors (updateBufferObjects sampleCollaborators skyboxUnbound).2 ∧
      textureCalls (updateBufferObjects sampleCollaborators skyboxUnbound).2 = [] ∧
      (updateBufferObjects sampleCollaborators skyboxUnbound).1.openGLTexture =
        skyboxUnbound.openGLTexture :=
  ⟨(c7_empty_texture_list_unbinds sampleCollaborators skyboxUnbound rfl).1,
    (c7_empty_texture_list_unbinds sampleCollaborators skyboxUnbound rfl).2.2 rfl⟩

/-- C8: with a texture list starting with `t0`, if the texture helper is not
bound to `t0` the calls on it are exactly `releaseGraphicsResources` then
`setRenderable(t0)` and it ends up bound to `t0`; if it is bound to `t0`
there is no call on it and its state is unchanged. -/
theorem c8_texture_rebinds_once (env : Collaborators) (model : Skybox) (t0 : JSRef)
    (rest : List JSRef) (htextures : model.textures = t0 :: rest) :
    (model.openGLTexture.renderable ≠ t0 →
        textureCalls (updateBufferObjects env model).2 =
            [Call.releaseGraphicsResources, Call.setRenderable t0] ∧
          (updateBufferObjects env model).1.openGLTexture.renderable = t0) ∧
      (model.openGLTexture.renderable = t0 →
        textureCalls (updateBufferObjects env model).2 = [] ∧
          (updateBufferObjects env model).1.openGLTexture = model.openGLTexture) := by
  have hindex : jsIndex model.textures 0 = t0 := by simp [htextures, jsIndex]
  constructor
  · intro hne
    rw [updateBufferObjects_textureCalls, updateBufferObjects_renderable, hindex]
    simp [hne]
  · intro heq
    rw [updateBufferObjects_textureCalls, updateBufferObjects_openGLTexture, hindex]
    simp [heq]

/-- C8 at `freshSkybox` with `sampleCollaborators`: the helper is bound to
`null`, the list starts with texture 1, and one release is followed by one
`setRenderable` of texture 1. -/
theorem c8_texture_rebinds_once_witness :
    textureCalls (updateBufferObjects sampleCollaborators freshSkybox).2 =
        [Call.releaseGraphicsResources, Call.setRenderable (JSRef.object 1)] ∧
      (updateBufferObjects sampleCollaborators freshSkybox).1.openGLTexture.renderable =
        JSRef.object 1 :=
  (c8_texture_rebinds_once sampleCollaborators freshSkybox (JSRef.object 1) [] rfl).1 (by decide)

/-- The values the loop writes into `ptsArray`. -/
theorem ptsArray_eq : ptsArray = [-1, -1, 1, 1, -1, 1, -1, 1, 1, 1, 1, 1] := by
  norm_num [ptsArray, List.range, List.range.loop, List.replicate, List.set]

/-- The four vertices held by `ptsArray`. -/
theorem vertex_ptsArray :
    vertex ptsArray 0 = (-1, -1, 1) ∧ vertex ptsArray 1 = (1, -1, 1) ∧
      vertex ptsArray 2 = (-1, 1, 1) ∧ vertex ptsArray 3 = (1, 1, 1) := by
  rw [ptsArray_eq]
  simp [vertex, List.getD]

/-- C9: on first build `updateBufferObjects` hands `createVBO` the cell
array `[3,0,1,3,3,0,3,2]` and the twelve point values of the four distinct
vertices `(-1,-1,1)`, `(1,-1,1)`, `(-1,1,1)`, `(1,1,1)`; the cell array
decodes, with nothing left over, into the two triangles `(0,1,3)` and
`(0,3,2)`, whose indices are all below 4, which both turn counter-clockwise,
and which together contain every point of the quad `[-1,1] x [-1,1]`. -/
theorem c9_quad_geometry (env : Collaborators) (model : Skybox)
    (hfirst : model.tris.cabo.elementCount = 0) :
    (updateBufferObjects env model).2.head? = some (Call.createVBO cells points) ∧
      cells.values = [3, 0, 1, 3, 3, 0, 3, 2] ∧
      points.numberOfComponents = 3 ∧
      points.values.length = 3 * 4 ∧
      (List.range 4).map (vertex points.values) =
        [(-1, -1, 1), (1, -1, 1), (-1, 1, 1), (1, 1, 1)] ∧
      ((List.range 4).map (vertex points.values)).Nodup ∧
      (∀ v ∈ (List.range 4).map (vertex points.values),
        (v.1 = 1 ∨ v.1 = -1) ∧ (v.2.1 = 1 ∨ v.2.1 = -1) ∧ v.2.2 = 1) ∧
      decodeCells cells.values = some [[0, 1, 3], [0, 3, 2]] ∧
      (∀ tri ∈ [[0, 1, 3], [0, 3, 2]], tri.length = 3 ∧ ∀ i ∈ tri, i < 4) ∧
      0 < edge (vertex points.values 0) (vertex points.values 1) (vertex points.values 3) ∧
      0 < edge (vertex points.values 0) (vertex points.values 3) (vertex points.values 2) ∧
      (∀ x y : ℚ, -1 ≤ x → x ≤ 1 → -1 ≤ y → y ≤ 1 →
        inTriangle (vertex points.values 0) (vertex points.values 1) (vertex points.values 3)
            (x, y, 1) ∨
          inTriangle (vertex points.values 0) (vertex points.values 3) (vertex points.values 2)
            (x, y, 1)) := by
  obtain ⟨v0, v1, v2, v3⟩ := vertex_ptsArray
  have hverts : (List.range 4).map (vertex points.values) =
      [(-1, -1, 1), (1, -1, 1), (-1, 1, 1), (1, 1, 1)] := by
    simp [points, List.range, List.range.loop, v0, v1, v2, v3]
  refine ⟨?_, by decide, rfl, ?_, hverts, ?_, ?_, by decide, by decide, ?_, ?_, ?_⟩
  · by_cases h2 : model.openGLTexture.renderable = jsIndex model.textures 0 <;>
      simp [updateBufferObjects, hfirst, h2]
  · simp [points, ptsArray_eq]
  · rw [hverts]
    norm_num
  · rw [hverts]
    intro v hv
    simp only [List.mem_cons, List.mem_singleton, List.not_mem_nil, or_false] at hv
    rcases hv with rfl | rfl | rfl | rfl <;> norm_num
  · simp only [points, v0, v1, v3, edge]
    norm_num
  · simp only [points, v0, v2, v3, edge]
    norm_num
  · intro x y hx0 hx1 hy0 hy1
    simp only [points, v0, v1, v2, v3, edge, inTriangle]
    rcases le_total y x with h | h
    · left
      refine ⟨?_, ?_, ?_⟩ <;> linarith
    · right
      refine ⟨?_, ?_, ?_⟩ <;> linarith

/-- C9 at `freshSkybox` with `sampleCollaborators`: the first call made is
`createVBO` with the quad, whose cell array decodes into the two triangles. -/
theorem c9_quad_geometry_witness :
    freshSkybox.tris.cabo.elementCount = 0 ∧
      (updateBufferObjects sampleCollaborators freshSkybox).2.head? =
        some (Call.createVBO cells points) ∧
      decodeCells cells.values = some [[0, 1, 3], [0, 3, 2]] :=
  ⟨rfl, (c9_quad_geometry sampleCollaborators freshSkybox rfl).1,
    (c9_quad_geometry sampleCollaborators freshSkybox rfl).2.2.2.2.2.2.2.1⟩

end VtkJs
